import Mathlib

/-!
Verification of `src/resources/interception/interception-type.cpp`, a small
Windows helper that types a text string by injecting keyboard scan-code
events through the Interception driver.

Shallow embedding conventions:
* A C `char` is modelled as a byte value `Nat` (relevant range `0..255`).
  The source compares `char` values against ASCII literals; for bytes
  `0x80..0xFF` every range test and every `switch` case in the source fails
  whether `char` is signed or unsigned (all literals are `< 0x80`), so the
  unsigned model agrees with both ABIs on the whole byte range.
* `char_to_scancode` returns the scancode paired with the `need_shift`
  out-parameter (the C function assigns `need_shift = false` on entry and
  sets it to `true` only on the branches that return a shifted scancode).
* Observable behaviour is a trace of `Action`s: key events handed to
  `interception_send`, `Sleep` calls, and the two per-character console
  lines (the unknown-character warning and the `Typed: %c` progress line).
* `interception_send` returns an `int`, which the C wrapper `send_key`
  (declared `void`) discards.  The embedding threads an explicit sink
  result function `sink : Nat -> Bool` (result of the i-th send) so that
  theorems can quantify over send failures; faithfully to the source, the
  result is never inspected.
* The driver handshake in `main` (`interception_create_context`,
  `interception_wait`) is third-party library code not present in the
  repository; it is modelled by an `Env` oracle recording whether the
  context was acquired and whether a valid keyboard device was returned.
-/

namespace Interception

/-- One observable step of the program: a keystroke handed to the driver
(`sendKey scancode down`), a `Sleep ms` call, the unknown-character warning
`printf("Warning: Unknown character %c (0x%02X)", c, c)` (the action keeps
the byte `c`, from which both the printable and the numeric form printed by
the source are derived), or the `printf("Typed: %c", c)` progress line. -/
inductive Action where
  | sendKey (scancode : Nat) (down : Bool)
  | sleep (ms : Int)
  | warn (c : Nat)
  | typed (c : Nat)
  deriving DecidableEq

/-- Embedding of `char_to_scancode(char c, bool &need_shift)`: scan-code map
for the US keyboard layout.  Returns `(scancode, need_shift)`; the default
branch returns `(0x00, false)`, the Unknown sentinel. -/
def char_to_scancode (c : Nat) : Nat × Bool :=
  -- Lowercase letters (a-z)
  if 0x61 ≤ c ∧ c ≤ 0x7A then (0x1E + (c - 0x61), false)
  -- Uppercase letters (A-Z)
  else if 0x41 ≤ c ∧ c ≤ 0x5A then (0x1E + (c - 0x41), true)
  -- Numbers (0-9)
  else if 0x30 ≤ c ∧ c ≤ 0x39 then
    (if c = 0x30 then (0x0B, false) else (0x02 + (c - 0x31), false))
  -- Special characters
  else if c = 0x20 then (0x39, false)      -- space
  else if c = 0x0A then (0x1C, false)      -- newline -> Enter
  else if c = 0x09 then (0x0F, false)      -- tab
  else if c = 0x2D then (0x0C, false)      -- minus
  else if c = 0x3D then (0x0D, false)      -- equals
  else if c = 0x5B then (0x1A, false)      -- left bracket
  else if c = 0x5D then (0x1B, false)      -- right bracket
  else if c = 0x5C then (0x2B, false)      -- backslash
  else if c = 0x3B then (0x27, false)      -- semicolon
  else if c = 0x27 then (0x28, false)      -- single quote
  else if c = 0x60 then (0x29, false)      -- backtick
  else if c = 0x2C then (0x33, false)      -- comma
  else if c = 0x2E then (0x34, false)      -- period
  else if c = 0x2F then (0x35, false)      -- slash
  -- Shifted characters
  else if c = 0x21 then (0x02, true)       -- ! on 1
  else if c = 0x40 then (0x03, true)       -- @ on 2
  else if c = 0x23 then (0x04, true)       -- # on 3
  else if c = 0x24 then (0x05, true)       -- dollar on 4
  else if c = 0x25 then (0x06, true)       -- percent on 5
  else if c = 0x5E then (0x07, true)       -- caret on 6
  else if c = 0x26 then (0x08, true)       -- ampersand on 7
  else if c = 0x2A then (0x09, true)       -- asterisk on 8
  else if c = 0x28 then (0x0A, true)       -- ( on 9
  else if c = 0x29 then (0x0B, true)       -- ) on 0
  else if c = 0x5F then (0x0C, true)       -- underscore on minus
  else if c = 0x2B then (0x0D, true)       -- plus on equals
  else if c = 0x7B then (0x1A, true)       -- left brace on left bracket
  else if c = 0x7D then (0x1B, true)       -- right brace on right bracket
  else if c = 0x7C then (0x2B, true)       -- pipe on backslash
  else if c = 0x3A then (0x27, true)       -- colon on semicolon
  else if c = 0x22 then (0x28, true)       -- double quote on single quote
  else if c = 0x7E then (0x29, true)       -- tilde on backtick
  else if c = 0x3C then (0x33, true)       -- < on comma
  else if c = 0x3E then (0x34, true)       -- > on period
  else if c = 0x3F then (0x35, true)       -- ? on slash
  else (0x00, false)                       -- default: Unknown

/-- Embedding of `send_key`: builds an `InterceptionKeyStroke` and passes it
to `interception_send`.  `interception_send` returns an `int`, but `send_key`
is `void` and discards it; `res` is the sink result for this send, which is
consequently ignored. -/
def send_key (_res : Bool) (scancode : Nat) (down : Bool) : Action :=
  Action.sendKey scancode down

/-- The loop body of `type_text`, recursing over the remaining characters.
`idx` numbers the sends performed so far, so `sink idx` is the result of the
next `interception_send` call.  The C source computes
`char_to_scancode(text[i], need_shift)` once per character; the pure
embedding refers to the components of the same application. -/
def type_text_loop (sink : Nat → Bool) (delay_ms : Int) :
    List Nat → Nat → List Action
  | [], _ => []
  | c :: rest, idx =>
    if (char_to_scancode c).fst = 0 then
      -- printf("Warning: Unknown character ..."); continue;
      Action.warn c :: type_text_loop sink delay_ms rest idx
    else if (char_to_scancode c).snd then
      send_key (sink idx) 0x2A true ::            -- left shift down
      Action.sleep 10 ::
      send_key (sink (idx + 1)) (char_to_scancode c).fst true ::
      Action.sleep 10 ::
      send_key (sink (idx + 2)) (char_to_scancode c).fst false ::
      Action.sleep 10 ::
      send_key (sink (idx + 3)) 0x2A false ::     -- left shift up
      Action.sleep delay_ms ::
      Action.typed c ::
      type_text_loop sink delay_ms rest (idx + 4)
    else
      send_key (sink idx) (char_to_scancode c).fst true ::
      Action.sleep 10 ::
      send_key (sink (idx + 1)) (char_to_scancode c).fst false ::
      Action.sleep delay_ms ::
      Action.typed c ::
      type_text_loop sink delay_ms rest (idx + 2)

/-- Embedding of `type_text(context, keyboard, text, delay_ms)`: iterates
over the `strlen(text)` characters of `text` in order. -/
def type_text (sink : Nat → Bool) (text : List Nat) (delay_ms : Int) :
    List Action :=
  type_text_loop sink delay_ms text 0

/-- Outcome oracle for the third-party Interception driver calls made by
`main`: whether `interception_create_context` returned a non-null context,
and whether the device returned by `interception_wait` passed the
`interception_is_invalid` check. -/
structure Env where
  contextOk : Bool
  keyboardValid : Bool

/-- Result of one program run: the process exit code, the trace of emitted
actions, and the count printed by `printf("Done! Typed %d characters",
strlen(text))` when that line is reached (`none` on the early-exit paths). -/
structure RunResult where
  exitCode : Nat
  trace : List Action
  reported : Option Nat
  deriving DecidableEq

/-- Digits of C `atoi` after sign processing: consume decimal digits until
the first non-digit. -/
def atoiDigits : List Nat → Int → Int
  | [], acc => acc
  | c :: rest, acc =>
    if 0x30 ≤ c ∧ c ≤ 0x39 then atoiDigits rest (acc * 10 + ((c : Int) - 0x30))
    else acc

/-- Leading-whitespace skipping of C `atoi` (`isspace` set). -/
def atoiSkipWs : List Nat → List Nat
  | [] => []
  | c :: rest =>
    if c = 0x20 ∨ (0x09 ≤ c ∧ c ≤ 0x0D) then atoiSkipWs rest else c :: rest

/-- Embedding of C `atoi` as used for `argv[2]`: optional whitespace, an
optional sign, then leading digits; 0 when no digits are present.
(`int` overflow, undefined behaviour in C, is modelled as unbounded.) -/
def atoi (s : List Nat) : Int :=
  match atoiSkipWs s with
  | 0x2D :: rest => - atoiDigits rest 0   -- minus sign
  | 0x2B :: rest => atoiDigits rest 0     -- plus sign
  | rest => atoiDigits rest 0

/-- Embedding of `main(argc, argv)`.  `args` is the argv vector (each entry
a byte string, `args.length = argc`).  Exit 1 when the text argument is
missing, when the Interception context cannot be created, or when no valid
keyboard device is detected; otherwise `Sleep(500)`, `Sleep(2000)`,
`type_text`, the `Done! Typed strlen(text)` report, and exit 0. -/
def mainRun (env : Env) (sink : Nat → Bool) (args : List (List Nat)) :
    RunResult :=
  if args.length < 2 then ⟨1, [], none⟩
  else
    let text := args.getD 1 []
    let delay_ms : Int := if 3 ≤ args.length then atoi (args.getD 2 []) else 100
    if env.contextOk = false then ⟨1, [], none⟩
    else if env.keyboardValid = false then ⟨1, [], none⟩
    else
      ⟨0,
       Action.sleep 500 :: Action.sleep 2000 ::
         type_text sink text delay_ms,
       some text.length⟩

/-- Is this action a key event handed to the driver? -/
def isKeyEvent : Action → Bool
  | Action.sendKey _ _ => true
  | _ => false

/-- The subsequence of driver key events in a trace (sleeps and console
lines removed). -/
def keyEvents (tr : List Action) : List Action :=
  tr.filter isKeyEvent

/-- The characters the emission loop handled, in order: each loop
iteration produces exactly one `warn c` (unknown, skipped) or one
`typed c` (emitted) marker. -/
def processedChars (tr : List Action) : List Nat :=
  tr.filterMap fun a =>
    match a with
    | Action.warn c => some c
    | Action.typed c => some c
    | _ => none

/-- Number of `Typed: %c` progress lines in a trace, i.e. characters
actually emitted. -/
def typedCount (tr : List Action) : Nat :=
  tr.countP fun a => match a with | Action.typed _ => true | _ => false

/-- Number of unknown-character warnings in a trace. -/
def warnCount (tr : List Action) : Nat :=
  tr.countP fun a => match a with | Action.warn _ => true | _ => false

/-- The key events one character expands to: nothing for an unknown
character, `[keyDown, keyUp]` for an unshifted one, and
`[shiftDown, keyDown, keyUp, shiftUp]` for a shift-requiring one. -/
def charKeyEvents (c : Nat) : List Action :=
  if (char_to_scancode c).fst = 0 then []
  else if (char_to_scancode c).snd then
    [Action.sendKey 0x2A true,
     Action.sendKey (char_to_scancode c).fst true,
     Action.sendKey (char_to_scancode c).fst false,
     Action.sendKey 0x2A false]
  else
    [Action.sendKey (char_to_scancode c).fst true,
     Action.sendKey (char_to_scancode c).fst false]

/-- The 14 unshifted punctuation characters handled by the switch. -/
def punctuationChars : List Nat :=
  [0x20, 0x0A, 0x09, 0x2D, 0x3D, 0x5B, 0x5D, 0x5C, 0x3B, 0x27, 0x60,
   0x2C, 0x2E, 0x2F]

/-- The 21 shifted punctuation characters paired with their unshifted base
keys: bang/1, at/2, hash/3, dollar/4, percent/5, caret/6, ampersand/7,
asterisk/8, lparen/9, rparen/0, underscore/minus, plus/equals,
lbrace/lbracket, rbrace/rbracket, pipe/backslash, colon/semicolon,
dquote/squote, tilde/backtick, lt/comma, gt/period, question/slash. -/
def shiftedPairs : List (Nat × Nat) :=
  [(0x21, 0x31), (0x40, 0x32), (0x23, 0x33), (0x24, 0x34), (0x25, 0x35),
   (0x5E, 0x36), (0x26, 0x37), (0x2A, 0x38), (0x28, 0x39), (0x29, 0x30),
   (0x5F, 0x2D), (0x2B, 0x3D), (0x7B, 0x5B), (0x7D, 0x5D), (0x7C, 0x5C),
   (0x3A, 0x3B), (0x22, 0x27), (0x7E, 0x60), (0x3C, 0x2C), (0x3E, 0x2E),
   (0x3F, 0x2F)]

/-- The declared character sets of the encoder: letters, digits, the fixed
punctuation set, and the shifted punctuation set. -/
def declaredChar (c : Nat) : Bool :=
  (0x61 ≤ c && c ≤ 0x7A) || (0x41 ≤ c && c ≤ 0x5A) ||
  (0x30 ≤ c && c ≤ 0x39) || punctuationChars.contains c ||
  shiftedPairs.any (fun p => p.fst = c)

/-! ### Shared structural lemmas about the emission loop -/

/-- Unfolding the loop on an unknown character. -/
theorem type_text_loop_cons_unknown (s : Nat → Bool) (d : Int) (c : Nat)
    (rest : List Nat) (idx : Nat) (h0 : (char_to_scancode c).fst = 0) :
    type_text_loop s d (c :: rest) idx =
      Action.warn c :: type_text_loop s d rest idx := by
  simp only [type_text_loop]
  rw [if_pos h0]

/-- Unfolding the loop on a shift-requiring character. -/
theorem type_text_loop_cons_shift (s : Nat → Bool) (d : Int) (c : Nat)
    (rest : List Nat) (idx : Nat) (h0 : ¬ (char_to_scancode c).fst = 0)
    (hs : (char_to_scancode c).snd = true) :
    type_text_loop s d (c :: rest) idx =
      Action.sendKey 0x2A true :: Action.sleep 10 ::
      Action.sendKey (char_to_scancode c).fst true :: Action.sleep 10 ::
      Action.sendKey (char_to_scancode c).fst false :: Action.sleep 10 ::
      Action.sendKey 0x2A false :: Action.sleep d :: Action.typed c ::
      type_text_loop s d rest (idx + 4) := by
  simp only [type_text_loop, send_key]
  rw [if_neg h0, if_pos hs]

/-- Unfolding the loop on an unshifted supported character. -/
theorem type_text_loop_cons_plain (s : Nat → Bool) (d : Int) (c : Nat)
    (rest : List Nat) (idx : Nat) (h0 : ¬ (char_to_scancode c).fst = 0)
    (hs : ¬ (char_to_scancode c).snd = true) :
    type_text_loop s d (c :: rest) idx =
      Action.sendKey (char_to_scancode c).fst true :: Action.sleep 10 ::
      Action.sendKey (char_to_scancode c).fst false :: Action.sleep d ::
      Action.typed c :: type_text_loop s d rest (idx + 2) := by
  simp only [type_text_loop, send_key]
  rw [if_neg h0, if_neg hs]

/-- The trace of the emission loop does not depend on the sink results nor
on the send numbering: `send_key` discards the result of every
`interception_send` call. -/
theorem type_text_loop_sink_irrelevant (s1 s2 : Nat → Bool) (d : Int) :
    ∀ (text : List Nat) (i1 i2 : Nat),
      type_text_loop s1 d text i1 = type_text_loop s2 d text i2 := by
  intro text
  induction text with
  | nil => intro i1 i2; rfl
  | cons c rest ih =>
    intro i1 i2
    by_cases h0 : (char_to_scancode c).fst = 0
    · rw [type_text_loop_cons_unknown s1 d c rest i1 h0,
        type_text_loop_cons_unknown s2 d c rest i2 h0, ih i1 i2]
    · by_cases hs : (char_to_scancode c).snd = true
      · rw [type_text_loop_cons_shift s1 d c rest i1 h0 hs,
          type_text_loop_cons_shift s2 d c rest i2 h0 hs,
          ih (i1 + 4) (i2 + 4)]
      · rw [type_text_loop_cons_plain s1 d c rest i1 h0 hs,
          type_text_loop_cons_plain s2 d c rest i2 h0 hs,
          ih (i1 + 2) (i2 + 2)]

/-- Key-event decomposition: the driver key events of the loop are the
concatenation, in input order, of each character's expansion. -/
theorem keyEvents_type_text_loop (s : Nat → Bool) (d : Int) :
    ∀ (text : List Nat) (idx : Nat),
      keyEvents (type_text_loop s d text idx) =
        text.flatMap charKeyEvents := by
  intro text
  induction text with
  | nil => intro idx; rfl
  | cons c rest ih =>
    intro idx
    by_cases h0 : (char_to_scancode c).fst = 0
    · rw [type_text_loop_cons_unknown s d c rest idx h0, List.flatMap_cons]
      simp only [keyEvents, List.filter_cons, isKeyEvent]
      rw [← keyEvents, ih idx]
      simp [charKeyEvents, h0]
    · by_cases hs : (char_to_scancode c).snd = true
      · rw [type_text_loop_cons_shift s d c rest idx h0 hs, List.flatMap_cons]
        simp only [keyEvents, List.filter_cons, isKeyEvent]
        rw [← keyEvents, ih (idx + 4)]
        simp [charKeyEvents, h0, hs]
      · rw [type_text_loop_cons_plain s d c rest idx h0 hs, List.flatMap_cons]
        simp only [keyEvents, List.filter_cons, isKeyEvent]
        rw [← keyEvents, ih (idx + 2)]
        simp [charKeyEvents, h0, hs]

/-- Each input character is handled exactly once, in input order: the loop
leaves exactly one marker (a warning or a `Typed` line) per character. -/
theorem processedChars_type_text_loop (s : Nat → Bool) (d : Int) :
    ∀ (text : List Nat) (idx : Nat),
      processedChars (type_text_loop s d text idx) = text := by
  intro text
  induction text with
  | nil => intro idx; rfl
  | cons c rest ih =>
    intro idx
    by_cases h0 : (char_to_scancode c).fst = 0
    · rw [type_text_loop_cons_unknown s d c rest idx h0]
      simp only [processedChars, List.filterMap_cons]
      rw [← processedChars, ih idx]
    · by_cases hs : (char_to_scancode c).snd = true
      · rw [type_text_loop_cons_shift s d c rest idx h0 hs]
        simp only [processedChars, List.filterMap_cons]
        rw [← processedChars, ih (idx + 4)]
      · rw [type_text_loop_cons_plain s d c rest idx h0 hs]
        simp only [processedChars, List.filterMap_cons]
        rw [← processedChars, ih (idx + 2)]

/-! ### Claims -/

/-- C1: the program reports, as the result of a run, `strlen(text)` — not
the count of characters successfully emitted.  On the concrete input
`"a\x80b"` (two supported characters around one unsupported byte) the run
exits 0 and records exactly one warning, exactly 2 characters are emitted
(two `Typed` lines, 4 key events), yet the `Done! Typed %d characters` line
reports 3.  This contradicts the specified contract (emitted-character
count, which would be 2) and the program's own per-character progress
output, so the summary count is a code bug. -/
theorem C1_reported_count_is_strlen :
    (mainRun ⟨true, true⟩ (fun _ => true) [[0x70], [0x61, 0x80, 0x62]]).exitCode = 0 ∧
    (mainRun ⟨true, true⟩ (fun _ => true) [[0x70], [0x61, 0x80, 0x62]]).reported = some 3 ∧
    typedCount (mainRun ⟨true, true⟩ (fun _ => true) [[0x70], [0x61, 0x80, 0x62]]).trace = 2 ∧
    warnCount (mainRun ⟨true, true⟩ (fun _ => true) [[0x70], [0x61, 0x80, 0x62]]).trace = 1 := by
  decide

/-- C2: the key events emitted by `type_text` are exactly the concatenation,
in input order, of each character's expansion (`[shiftDown, keyDown, keyUp,
shiftUp]` for a shift-requiring character, `[keyDown, keyUp]` otherwise,
nothing for an unknown character), with no interleaving across characters;
in particular input `"Ab1!"` at delay 0 yields exactly the 12 events
shiftDown, keyDown(0x1E), keyUp(0x1E), shiftUp, keyDown(0x1F), keyUp(0x1F),
keyDown(0x02), keyUp(0x02), shiftDown, keyDown(0x02), keyUp(0x02), shiftUp
(0x1E, 0x1F, 0x02 being the scancodes of a, b, 1), and 4 characters are
processed. -/
theorem C2_shift_event_order :
    (∀ (s : Nat → Bool) (d : Int) (text : List Nat),
      keyEvents (type_text s text d) = text.flatMap charKeyEvents) ∧
    keyEvents (type_text (fun _ => true) [0x41, 0x62, 0x31, 0x21] 0) =
      [Action.sendKey 0x2A true, Action.sendKey 0x1E true,
       Action.sendKey 0x1E false, Action.sendKey 0x2A false,
       Action.sendKey 0x1F true, Action.sendKey 0x1F false,
       Action.sendKey 0x02 true, Action.sendKey 0x02 false,
       Action.sendKey 0x2A true, Action.sendKey 0x02 true,
       Action.sendKey 0x02 false, Action.sendKey 0x2A false] ∧
    (processedChars (type_text (fun _ => true) [0x41, 0x62, 0x31, 0x21] 0)).length = 4 :=
  ⟨fun s d text => keyEvents_type_text_loop s d text 0, by decide, by decide⟩

/-- C3: shift state is orthogonal to scancode identity.  For the i-th
lowercase letter `c = 0x61 + i` and its uppercase form `toUpper c = 0x41 + i`
the scancodes coincide, with the lowercase one unshifted and the uppercase
one shifted; and each of the 21 shifted punctuation symbols reuses the
scancode of its unshifted base key with the shift flag set. -/
theorem C3_shift_orthogonality :
    (∀ i : Fin 26,
      (char_to_scancode (0x61 + i.val)).fst = (char_to_scancode (0x41 + i.val)).fst ∧
      (char_to_scancode (0x61 + i.val)).snd = false ∧
      (char_to_scancode (0x41 + i.val)).snd = true) ∧
    (∀ j : Fin shiftedPairs.length,
      (char_to_scancode (shiftedPairs.get j).fst).fst =
        (char_to_scancode (shiftedPairs.get j).snd).fst ∧
      (char_to_scancode (shiftedPairs.get j).fst).snd = true) := by
  decide

/-- C4 counterexample: the claim that the scancode of the digit 0 is not
contiguous with the scancode of 9 is false — the encoder maps 0 to 0x0B,
which is exactly one more than the 0x0A it assigns to 9. -/
theorem C4_zero_contiguous_with_nine :
    (char_to_scancode 0x30).fst = 0x0B ∧
    (char_to_scancode 0x39).fst = 0x0A ∧
    (char_to_scancode 0x30).fst = (char_to_scancode 0x39).fst + 1 := by
  decide

/-- C4 (amended): the scancodes of digits 1 through 9 form the strictly
increasing contiguous run 0x02..0x0A, and digit 0 maps to 0x0B — outside
that run (it does not follow the `0x02 + (c - 0x31)` pattern, which would
give 0x01), but numerically adjacent to the scancode of 9. -/
theorem C4_digit_scancodes :
    (∀ i : Fin 9, (char_to_scancode (0x31 + i.val)).fst = 0x02 + i.val) ∧
    (∀ i : Fin 8,
      (char_to_scancode (0x31 + i.val)).fst < (char_to_scancode (0x32 + i.val)).fst) ∧
    (char_to_scancode 0x30).fst = 0x0B ∧
    (∀ i : Fin 9, (char_to_scancode 0x30).fst ≠ (char_to_scancode (0x31 + i.val)).fst) ∧
    (char_to_scancode 0x30).fst = (char_to_scancode 0x39).fst + 1 := by
  decide

set_option maxRecDepth 4000 in
/-- C5: every byte outside the declared sets (letters, digits, the fixed
punctuation set, the shifted punctuation set) is encoded as the Unknown
sentinel 0x00, and the emission loop then prints the warning carrying that
byte (from which the source formats both the printable `%c` and the numeric
`0x%02X` form), emits no event for it, and continues with the rest of the
text. -/
theorem C5_unknown_characters_skipped (c : Fin 256) (s : Nat → Bool)
    (d : Int) (rest : List Nat) (idx : Nat)
    (h : declaredChar c.val = false) :
    (char_to_scancode c.val).fst = 0 ∧
    type_text_loop s d (c.val :: rest) idx =
      Action.warn c.val :: type_text_loop s d rest idx := by
  have h1 : ∀ x : Fin 256, declaredChar x.val = false →
      (char_to_scancode x.val).fst = 0 := by decide
  have h2 := h1 c h
  exact ⟨h2, type_text_loop_cons_unknown s d c.val rest idx h2⟩

/-- C5 witness: the undeclared byte 0x80 before the letter a. -/
theorem C5_unknown_characters_skipped_witness :
    (char_to_scancode 0x80).fst = 0 ∧
    type_text_loop (fun _ => true) 0 (0x80 :: [0x61]) 0 =
      Action.warn 0x80 :: type_text_loop (fun _ => true) 0 [0x61] 0 :=
  C5_unknown_characters_skipped ⟨0x80, by decide⟩ (fun _ => true) 0 [0x61] 0
    (by decide)

/-- C6 counterexample: send failures do not abort the emission loop.  With
a sink on which every send fails, typing `"ab"` still emits the full trace
— identical to the all-sends-succeed trace — with both characters completed
(2 `Typed` lines, 4 key events), instead of aborting at the first failed
send as the claim states. -/
theorem C6_no_abort_on_send_failure :
    type_text (fun _ => false) [0x61, 0x62] 0 =
      type_text (fun _ => true) [0x61, 0x62] 0 ∧
    typedCount (type_text (fun _ => false) [0x61, 0x62] 0) = 2 ∧
    (keyEvents (type_text (fun _ => false) [0x61, 0x62] 0)).length = 4 := by
  decide

/-- C6 (amended): an individual send failure after the session has started
is invisible to `type_text`: `send_key` discards the result of
`interception_send`, so the emitted trace is identical for any two
assignments of send results — the loop never aborts, never retries, and
surfaces no failure or completed-character count. -/
theorem C6_send_failures_invisible (s1 s2 : Nat → Bool) (text : List Nat)
    (d : Int) :
    type_text s1 text d = type_text s2 text d :=
  type_text_loop_sink_irrelevant s1 s2 d text 0 0

/-- C7 counterexample: the delay argument is not parsed as a non-negative
integer.  Invoked as `program a -5`, `atoi` yields -5 and the run uses the
negative value as the inter-character delay. -/
theorem C7_negative_delay_accepted :
    atoi [0x2D, 0x35] = -5 ∧
    Action.sleep (-5) ∈
      (mainRun ⟨true, true⟩ (fun _ => true) [[0x70], [0x61], [0x2D, 0x35]]).trace := by
  decide

/-- C7 (amended): the CLI requires the text argument and takes an optional
delay that defaults to 100 and is parsed with C `atoi` semantics — no upper
bound, but also no sign check, so a negative argument yields a negative
delay.  The program exits 1 when the text argument is missing, when the
Interception context cannot be created, or when no valid keyboard device is
detected; otherwise it runs to completion and exits 0 (warnings included),
with the delay taken from `argv[2]` when present and 100 otherwise. -/
theorem C7_cli_contract (env : Env) (s : Nat → Bool)
    (args : List (List Nat)) (p text dstr : List Nat) :
    (args.length < 2 → mainRun env s args = ⟨1, [], none⟩) ∧
    (env.contextOk = false → 2 ≤ args.length →
      mainRun env s args = ⟨1, [], none⟩) ∧
    (env.contextOk = true → env.keyboardValid = false → 2 ≤ args.length →
      mainRun env s args = ⟨1, [], none⟩) ∧
    (mainRun ⟨true, true⟩ s [p, text] =
      ⟨0, Action.sleep 500 :: Action.sleep 2000 :: type_text s text 100,
       some text.length⟩) ∧
    (mainRun ⟨true, true⟩ s [p, text, dstr] =
      ⟨0, Action.sleep 500 :: Action.sleep 2000 ::
            type_text s text (atoi dstr),
       some text.length⟩) := by
  refine ⟨?_, ?_, ?_, ?_, ?_⟩
  · intro h
    simp [mainRun, h]
  · intro hc h2
    simp [mainRun, hc, Nat.not_lt.mpr h2]
  · intro hc hk h2
    simp [mainRun, hc, hk, Nat.not_lt.mpr h2]
  · simp [mainRun]
  · simp [mainRun]

/-- C7 witness: a failed context acquisition with both arguments present,
and a missing text argument, both exit 1 with nothing emitted. -/
theorem C7_cli_contract_witness :
    mainRun ⟨false, true⟩ (fun _ => true) [[0x70], [0x61]] = ⟨1, [], none⟩ ∧
    mainRun ⟨true, true⟩ (fun _ => true) [[0x70]] = ⟨1, [], none⟩ :=
  ⟨(C7_cli_contract ⟨false, true⟩ (fun _ => true) [[0x70], [0x61]]
      [0x70] [0x61] [0x31]).2.1 rfl (by decide),
   (C7_cli_contract ⟨true, true⟩ (fun _ => true) [[0x70]]
      [0x70] [0x61] [0x31]).1 (by decide)⟩

/-- C8: for every input text and any two delay values, `type_text` emits
the identical key events in the identical order (and handles the identical
characters): the delay parameter only changes the `Sleep` pacing, never
which events are emitted. -/
theorem C8_delay_independence (s : Nat → Bool) (text : List Nat)
    (d1 d2 : Int) :
    keyEvents (type_text s text d1) = keyEvents (type_text s text d2) ∧
    processedChars (type_text s text d1) = processedChars (type_text s text d2) := by
  constructor
  · simp only [type_text]
    rw [keyEvents_type_text_loop s d1 text 0, keyEvents_type_text_loop s d2 text 0]
  · simp only [type_text]
    rw [processedChars_type_text_loop s d1 text 0,
      processedChars_type_text_loop s d2 text 0]

set_option maxRecDepth 4000 in
/-- C9: the encoder assigns the shift flag on every path (it is total on
bytes), and whenever it returns the Unknown sentinel the shift flag is
false; consequently a skipped unknown character contributes no key event at
all — in particular no stray shift-down or shift-up. -/
theorem C9_unknown_never_shifts (c : Fin 256)
    (h : (char_to_scancode c.val).fst = 0) :
    (char_to_scancode c.val).snd = false ∧
    ∀ (s : Nat → Bool) (d : Int) (rest : List Nat) (idx : Nat),
      keyEvents (type_text_loop s d (c.val :: rest) idx) =
        keyEvents (type_text_loop s d rest idx) := by
  have h1 : ∀ x : Fin 256, (char_to_scancode x.val).fst = 0 →
      (char_to_scancode x.val).snd = false := by decide
  refine ⟨h1 c h, fun s d rest idx => ?_⟩
  rw [type_text_loop_cons_unknown s d c.val rest idx h]
  simp [keyEvents, isKeyEvent]

/-- C9 witness: the undeclared byte 0x80 before the letter b. -/
theorem C9_unknown_never_shifts_witness :
    (char_to_scancode 0x80).snd = false ∧
    keyEvents (type_text_loop (fun _ => true) 0 (0x80 :: [0x62]) 0) =
      keyEvents (type_text_loop (fun _ => true) 0 [0x62] 0) :=
  ⟨(C9_unknown_never_shifts ⟨0x80, by decide⟩ (by decide)).1,
   (C9_unknown_never_shifts ⟨0x80, by decide⟩ (by decide)).2
     (fun _ => true) 0 [0x62] 0⟩

/-- C10: `type_text` terminates on every finite input (it is a total
structurally recursive function over the character list, mirroring the C
loop bounded by `strlen`), and handles each character of the input exactly
once, in input order: the per-character markers of the trace are exactly
the input text, however many characters are unknown or shift-requiring. -/
theorem C10_each_char_processed_once (s : Nat → Bool) (d : Int)
    (text : List Nat) :
    processedChars (type_text s text d) = text :=
  processedChars_type_text_loop s d text 0

end Interception
